import Mathlib

/-!
Verification of the async-fd-lock repository: a shallow embedding of the
lock-token / guard protocol, the per-platform native lock primitives, the
synchronous facade and the asynchronous bridge, together with theorems
settling the specification claims.

File handles (`OwnedFd` on Unix, `OwnedHandle` on Windows) are modelled as
plain natural numbers; native syscall outcomes are supplied by small
environment records so that the control flow of the Rust source can be
reproduced exactly.
-/

namespace AsyncFdLock

/-! ### Error model (std::io::Error) -/

/-- The error kinds distinguished by the source. `otherKind` stands for every
kind the source does not inspect. -/
inductive ErrorKind
  | alreadyExists
  | wouldBlock
  | interrupted
  | permissionDenied
  | otherKind
deriving DecidableEq, Repr

/-- A `std::io::Error`: its kind plus an optional raw OS error code
(read by the Windows remapping via `raw_os_error`). -/
structure IoError where
  kind : ErrorKind
  rawOsError : Option Nat
deriving DecidableEq, Repr

/-- `ErrorKind::X.into()`: an error built from a kind alone carries no raw
OS code. -/
def IoError.ofKind (k : ErrorKind) : IoError :=
  { kind := k, rawOsError := none }

/-! ### Lock token (`LockGuard` in src/sys/mod.rs, also named `RwLockGuard`
in the guard files). Its single field is `handle: Option<OwnedOpenFile>`. -/

/-- The lock token of src/sys/mod.rs lines 59-86: an optional owned handle;
`Some` means armed, `None` means defused. -/
structure LockGuard where
  handle : Option Nat
deriving DecidableEq, Repr

/-- `LockGuard::new` (src/sys/mod.rs line 65): wraps the handle, armed. -/
def LockGuard.new (handle : Nat) : LockGuard :=
  { handle := some handle }

/-- The native releases performed by `Drop for LockGuard`
(src/sys/mod.rs lines 80-86): release on the handle iff the slot is
still `Some`. -/
def LockGuard.dropReleases (g : LockGuard) : List Nat :=
  match g.handle with
  | some h => [h]
  | none => []

/-- The owned handles closed when the token is dropped (the `OwnedOpenFile`
taken out of the slot is itself dropped at the end of `drop`). -/
def LockGuard.dropClosesHandles (g : LockGuard) : List Nat :=
  match g.handle with
  | some h => [h]
  | none => []

/-- `LockGuard::defuse` (src/sys/mod.rs lines 71-73):
`self.handle.take().expect(..)` — moves the handle out, leaving the slot
`None`. The `none` result models the (unreachable) panic on an already
emptied slot. -/
def LockGuard.defuse (g : LockGuard) : Option (Nat × LockGuard) :=
  g.handle.map fun h => (h, { handle := none })

/-- `LockGuard::defuse_with` (src/sys/mod.rs lines 75-77): defuses and
applies `map` to the extracted handle. -/
def LockGuard.defuseWith {α : Type} (g : LockGuard) (map : Nat → α) : Option α :=
  g.defuse.map fun p => map p.1

/-- The two complete lifecycles of a lock token. -/
inductive TokenLifecycle
  | droppedArmed
  | defusedThenDropped
deriving DecidableEq, Repr

/-- Number of native release calls the token itself performs over a complete
lifecycle starting from `LockGuard::new h`. -/
def tokenReleaseCount (h : Nat) : TokenLifecycle → Nat
  | .droppedArmed => ((LockGuard.new h).dropReleases).length
  | .defusedThenDropped =>
    match (LockGuard.new h).defuse with
    | some (_, post) => post.dropReleases.length
    | none => 0

/-! ### Unix native lock primitive (src/sys/unix/mod.rs, utils.rs) -/

/-- The `rustix::fs::FlockOperation` codes used by the source. -/
inductive FlockOperation
  | lockShared
  | lockExclusive
  | nonBlockingLockShared
  | nonBlockingLockExclusive
  | unlock
deriving DecidableEq, Repr

/-- The `match (WRITE, BLOCK)` of src/sys/unix/mod.rs lines 29-34. -/
def unixOperation (write block : Bool) : FlockOperation :=
  match write, block with
  | false, false => FlockOperation.nonBlockingLockShared
  | false, true => FlockOperation.lockShared
  | true, false => FlockOperation.nonBlockingLockExclusive
  | true, true => FlockOperation.lockExclusive

/-- Environment for one Unix file: the outcome of `try_clone_to_owned` and
of `compatible_unix_lock` (flock, or fcntl on Solaris) per operation. -/
structure UnixFileEnv where
  cloneResult : Except IoError Nat
  flock : FlockOperation → Except IoError Unit

/-- `acquire_lock_blocking::<WRITE, BLOCK>` of src/sys/unix/mod.rs lines
25-46: clone the fd, issue the flock operation selected by the const
generics, and on the non-blocking paths remap an `AlreadyExists` failure to
`WouldBlock`; success yields `RwLockGuard::new(handle_clone)`. -/
def unixAcquireLockBlocking (write block : Bool) (env : UnixFileEnv) :
    Except IoError LockGuard :=
  match env.cloneResult with
  | .error e => .error e
  | .ok handleClone =>
    let result := env.flock (unixOperation write block)
    let mapped : Except IoError Unit :=
      if block then
        result
      else
        match result with
        | .ok () => .ok ()
        | .error err =>
          .error (match err.kind with
            | ErrorKind.alreadyExists => IoError.ofKind ErrorKind.wouldBlock
            | _ => err)
    match mapped with
    | .error e => .error e
    | .ok () => .ok (LockGuard.new handleClone)

/-- `release_lock_blocking` of src/sys/unix/mod.rs lines 48-52:
`compatible_unix_lock(fd, FlockOperation::Unlock)`. -/
def unixReleaseLockBlocking (env : UnixFileEnv) : Except IoError Unit :=
  env.flock FlockOperation.unlock

/-! ### Windows native lock primitive (src/sys/windows/mod.rs) -/

def LOCKFILE_FAIL_IMMEDIATELY : Nat := 1
def LOCKFILE_EXCLUSIVE_LOCK : Nat := 2
def ERROR_LOCK_VIOLATION : Nat := 33

/-- The flag computation of src/sys/windows/mod.rs lines 31-32. -/
def windowsFlags (write block : Bool) : Nat :=
  (if write then LOCKFILE_EXCLUSIVE_LOCK else 0) |||
    (if block then 0 else LOCKFILE_FAIL_IMMEDIATELY)

/-- The arguments passed to `LockFileEx` at src/sys/windows/mod.rs line 33:
`LockFileEx(handle, flags, 0, 1, 0, overlapped.raw())` with a zeroed
OVERLAPPED (offset 0). -/
structure LockFileExArgs where
  flags : Nat
  reserved : Nat
  bytesToLockLow : Nat
  bytesToLockHigh : Nat
  overlappedOffset : Nat
deriving DecidableEq, Repr

def windowsLockFileExArgs (write block : Bool) : LockFileExArgs :=
  { flags := windowsFlags write block
    reserved := 0
    bytesToLockLow := 1
    bytesToLockHigh := 0
    overlappedOffset := 0 }

/-- The arguments passed to `UnlockFile` at src/sys/windows/mod.rs line 49:
`UnlockFile(handle, 0, 0, 1, 0)`. -/
structure UnlockFileArgs where
  offsetLow : Nat
  offsetHigh : Nat
  lengthLow : Nat
  lengthHigh : Nat
deriving DecidableEq, Repr

def windowsUnlockFileArgs : UnlockFileArgs :=
  { offsetLow := 0, offsetHigh := 0, lengthLow := 1, lengthHigh := 0 }

/-- Environment for one Windows file: the outcome of the two syscalls. -/
structure WindowsFileEnv where
  lockFileEx : LockFileExArgs → Except IoError Unit
  unlockFile : UnlockFileArgs → Except IoError Unit

/-- `acquire_lock_blocking::<WRITE, BLOCK>` of src/sys/windows/mod.rs lines
27-45: issue `LockFileEx` with the computed flags; on the non-blocking paths
remap a raw `ERROR_LOCK_VIOLATION` failure to `WouldBlock`. -/
def windowsAcquireLockBlocking (write block : Bool) (env : WindowsFileEnv) :
    Except IoError Unit :=
  let result := env.lockFileEx (windowsLockFileExArgs write block)
  if block then
    result
  else
    match result with
    | .ok () => .ok ()
    | .error error =>
      .error (match error.rawOsError with
        | some code =>
          if code = ERROR_LOCK_VIOLATION then IoError.ofKind ErrorKind.wouldBlock
          else error
        | none => error)

/-- `release_lock_blocking` of src/sys/windows/mod.rs lines 47-51. -/
def windowsReleaseLockBlocking (env : WindowsFileEnv) : Except IoError Unit :=
  env.unlockFile windowsUnlockFileArgs

/-! ### Locked byte ranges (claim C8) -/

/-- The byte range a native lock call operates on. `flock` takes no range
argument and always covers the whole file; `LockFileEx` and `UnlockFile`
take an explicit 64-bit offset and length. -/
inductive LockRange
  | wholeFile
  | byteRange (offset length : Nat)
deriving DecidableEq, Repr

/-- Whether the range covers an entire file of `fileSize` bytes. -/
def LockRange.covers (r : LockRange) (fileSize : Nat) : Bool :=
  match r with
  | .wholeFile => true
  | .byteRange offset length => offset = 0 && fileSize ≤ length

/-- `flock`/`fcntl_lock` (src/sys/unix/utils.rs lines 5-14) has no byte-range
parameter: the lock covers the whole file for every mode and policy. -/
def unixAcquireRange (_write _block : Bool) : LockRange := LockRange.wholeFile

def unixReleaseRange : LockRange := LockRange.wholeFile

/-- The range locked by the Windows acquisition: offset from the zeroed
OVERLAPPED, length from the two 32-bit length words. -/
def windowsAcquireRange (write block : Bool) : LockRange :=
  let args := windowsLockFileExArgs write block
  LockRange.byteRange args.overlappedOffset
    (args.bytesToLockLow + args.bytesToLockHigh * 2 ^ 32)

/-- The range unlocked by the Windows release. -/
def windowsReleaseRange : LockRange :=
  LockRange.byteRange
    (windowsUnlockFileArgs.offsetLow + windowsUnlockFileArgs.offsetHigh * 2 ^ 32)
    (windowsUnlockFileArgs.lengthLow + windowsUnlockFileArgs.lengthHigh * 2 ^ 32)

/-! ### Borrowed guard types (src/read_guard.rs, src/write_guard.rs) -/

/-- `RwLockReadGuard` (src/read_guard.rs lines 19-22): the wrapped file in an
`Option` slot; `None` means the lock was already released via `release`. -/
structure RwLockReadGuard (T : Type) where
  file : Option T
deriving DecidableEq, Repr

/-- Construction of a read guard around a file (the call sites in src/lib.rs
pass the container once the lock token has been defused). -/
def RwLockReadGuard.new {T : Type} (file : T) : RwLockReadGuard T :=
  { file := some file }

/-- Number of native release calls performed by `PinnedDrop for
RwLockReadGuard` (src/read_guard.rs lines 162-170): one iff the slot is
still occupied, and the `Result` is discarded with `let _ = ..`. -/
def RwLockReadGuard.dropReleaseCount {T : Type} (g : RwLockReadGuard T) : Nat :=
  match g.file with
  | some _ => 1
  | none => 0

/-- `RwLockReadGuard::release` (src/read_guard.rs lines 50-54): take the file
out of the slot (the slot becomes `None` before the unlock is attempted),
call `release_lock_blocking` on it, and return the file only on success; on
failure the `?` operator surfaces the error and the moved-out file is
dropped. The result pairs the returned value with the post-state of the
guard; `none` models the panic on an already emptied slot. -/
def RwLockReadGuard.release {T : Type} (g : RwLockReadGuard T)
    (unlockResult : Except IoError Unit) :
    Option (Except IoError T × RwLockReadGuard T) :=
  g.file.map fun file =>
    match unlockResult with
    | .ok () => (Except.ok file, { file := none })
    | .error e => (Except.error e, { file := none })

/-- `RwLockWriteGuard` (src/write_guard.rs lines 19-22), identical slot
layout to the read guard. -/
structure RwLockWriteGuard (T : Type) where
  file : Option T
deriving DecidableEq, Repr

def RwLockWriteGuard.new {T : Type} (file : T) : RwLockWriteGuard T :=
  { file := some file }

/-- `PinnedDrop for RwLockWriteGuard` (src/write_guard.rs lines 229-237). -/
def RwLockWriteGuard.dropReleaseCount {T : Type} (g : RwLockWriteGuard T) : Nat :=
  match g.file with
  | some _ => 1
  | none => 0

/-- `RwLockWriteGuard::release` (src/write_guard.rs lines 50-54). -/
def RwLockWriteGuard.release {T : Type} (g : RwLockWriteGuard T)
    (unlockResult : Except IoError Unit) :
    Option (Except IoError T × RwLockWriteGuard T) :=
  g.file.map fun file =>
    match unlockResult with
    | .ok () => (Except.ok file, { file := none })
    | .error e => (Except.error e, { file := none })

/-- The two complete lifecycles of a borrowed guard: dropped while armed, or
released by hand and then dropped. -/
inductive GuardLifecycle
  | dropOnly
  | releaseThenDrop
deriving DecidableEq, Repr

/-- Total native release calls over a complete read-guard lifecycle starting
from a freshly constructed guard. A `release` call performs exactly one
native unlock (src/read_guard.rs line 52) whatever its outcome, and the
subsequent drop acts on the post-state. -/
def readGuardLifecycleReleases {T : Type} (t : T)
    (unlockResult : Except IoError Unit) : GuardLifecycle → Nat
  | .dropOnly => (RwLockReadGuard.new t).dropReleaseCount
  | .releaseThenDrop =>
    match (RwLockReadGuard.new t).release unlockResult with
    | some (_, post) => 1 + post.dropReleaseCount
    | none => 0

/-- Total native release calls over a complete write-guard lifecycle. -/
def writeGuardLifecycleReleases {T : Type} (t : T)
    (unlockResult : Except IoError Unit) : GuardLifecycle → Nat
  | .dropOnly => (RwLockWriteGuard.new t).dropReleaseCount
  | .releaseThenDrop =>
    match (RwLockWriteGuard.new t).release unlockResult with
    | some (_, post) => 1 + post.dropReleaseCount
    | none => 0

/-! ### Owned guard types (src/owned_read_guard.rs, src/owned_write_guard.rs)

These wrap the whole `RwLock` container (which holds the file in
`lock.lock.inner`); their `Drop` unconditionally calls
`self.lock.lock.release_lock()` and discards the result. -/

/-- `sys::RwLock` (src/sys/unix/rw_lock.rs lines 7-10): the container that
owns the file between acquisitions. -/
structure SysRwLock (T : Type) where
  inner : T
deriving DecidableEq, Repr

/-- The public `RwLock` wrapper (src/rw_lock/nonblocking.rs lines 17-19). -/
structure RwLock (T : Type) where
  lock : SysRwLock T
deriving DecidableEq, Repr

/-- `OwnedRwLockReadGuard` (src/owned_read_guard.rs lines 12-14). -/
structure OwnedRwLockReadGuard (T : Type) where
  lock : RwLock T
deriving DecidableEq, Repr

/-- `Drop for OwnedRwLockReadGuard` (src/owned_read_guard.rs lines 32-37):
always exactly one native release, result discarded. -/
def OwnedRwLockReadGuard.dropReleaseCount {T : Type}
    (_g : OwnedRwLockReadGuard T) : Nat := 1

/-- `OwnedRwLockWriteGuard` (src/owned_write_guard.rs lines 12-14). -/
structure OwnedRwLockWriteGuard (T : Type) where
  lock : RwLock T
deriving DecidableEq, Repr

/-- `Drop for OwnedRwLockWriteGuard` (src/owned_write_guard.rs lines 32-37). -/
def OwnedRwLockWriteGuard.dropReleaseCount {T : Type}
    (_g : OwnedRwLockWriteGuard T) : Nat := 1

/-- The methods reachable on `OwnedRwLockReadGuard`: its inherent impl block
defines only `new`, and the trait impls are `Deref::deref` and
`Drop::drop`. In particular there is no `release` method. -/
def ownedReadGuardMethodNames : List String := ["new", "deref", "drop"]

/-- Likewise for `OwnedRwLockWriteGuard` (src/owned_write_guard.rs). -/
def ownedWriteGuardMethodNames : List String := ["new", "deref", "drop"]

/-! ### Release-result handling in the destructors (claim C7) -/

/-- How a destructor treats the `io::Result` of the native release:
`discardResult` is the `let _ = ..` pattern, `unwrapResult` would be an
`unwrap`/`expect` on it. -/
inductive ReleaseResultHandling
  | discardResult
  | unwrapResult
deriving DecidableEq, Repr

/-- Whether a destructor with the given handling panics for the given
release outcome. -/
def dropPanics (h : ReleaseResultHandling) (releaseResult : Except IoError Unit) :
    Bool :=
  match h, releaseResult with
  | .discardResult, _ => false
  | .unwrapResult, .error _ => true
  | .unwrapResult, .ok () => false

/-- src/sys/mod.rs line 83: `let _ = L::release_lock_from_file(&handle);`. -/
def lockGuardDropHandling : ReleaseResultHandling := .discardResult

/-- src/read_guard.rs line 167: `let _ = file.release_lock_blocking();`. -/
def readGuardDropHandling : ReleaseResultHandling := .discardResult

/-- src/write_guard.rs line 234: `let _ = file.release_lock_blocking();`. -/
def writeGuardDropHandling : ReleaseResultHandling := .discardResult

/-- src/owned_read_guard.rs line 35: `let _ = self.lock.lock.release_lock();`. -/
def ownedReadGuardDropHandling : ReleaseResultHandling := .discardResult

/-- src/owned_write_guard.rs line 35: `let _ = self.lock.lock.release_lock();`. -/
def ownedWriteGuardDropHandling : ReleaseResultHandling := .discardResult

/-! ### Synchronous facade and asynchronous bridge (src/lib.rs) -/

/-- The capabilities the facade consumes from an open file: the outcome of
`borrow_open_file().try_clone_to_owned()` and, for each `(WRITE, BLOCK)`
pair of const generics, the outcome of `acquire_lock_blocking`. -/
structure OpenFileEnv where
  cloneResult : Except IoError Nat
  acquireResult : Bool → Bool → Except IoError Unit

/-- `blocking::LockRead::lock_read` (src/lib.rs lines 86-91): on acquisition
failure return the original container alongside the error, otherwise wrap it
in a read guard. -/
def blockingLockRead {T : Type} (self : T) (env : OpenFileEnv) :
    Except (T × IoError) (RwLockReadGuard T) :=
  match env.acquireResult false true with
  | .error err => .error (self, err)
  | .ok () => .ok (RwLockReadGuard.new self)

/-- `blocking::LockRead::try_lock_read` (src/lib.rs lines 93-98). -/
def blockingTryLockRead {T : Type} (self : T) (env : OpenFileEnv) :
    Except (T × IoError) (RwLockReadGuard T) :=
  match env.acquireResult false false with
  | .error err => .error (self, err)
  | .ok () => .ok (RwLockReadGuard.new self)

/-- `blocking::LockWrite::lock_write` (src/lib.rs lines 105-110). -/
def blockingLockWrite {T : Type} (self : T) (env : OpenFileEnv) :
    Except (T × IoError) (RwLockWriteGuard T) :=
  match env.acquireResult true true with
  | .error err => .error (self, err)
  | .ok () => .ok (RwLockWriteGuard.new self)

/-- `blocking::LockWrite::try_lock_write` (src/lib.rs lines 112-117). -/
def blockingTryLockWrite {T : Type} (self : T) (env : OpenFileEnv) :
    Except (T × IoError) (RwLockWriteGuard T) :=
  match env.acquireResult true false with
  | .error err => .error (self, err)
  | .ok () => .ok (RwLockWriteGuard.new self)

/-- `tokio::sync::oneshot` send: delivered when the receiving end is still
alive, otherwise the value comes back in the `Err`. -/
def oneshotSend {α : Type} (receiverAlive : Bool) (value : α) : Except α Unit :=
  if receiverAlive then Except.ok () else Except.error value

/-- The observable outcome of one run of `nonblocking::lock`
(src/lib.rs lines 126-144). -/
structure AsyncLockRun where
  workerSpawned : Bool
  callerResult : Option (Except IoError LockGuard)
  workerDropReleases : List Nat
  workerDropClosedHandles : List Nat

/-- One run of `nonblocking::lock`: duplicate the handle (`?` returns the
error before any worker is spawned), spawn the worker, acquire on the
duplicated handle, build the lock token on success, send it over the
one-shot channel, and drop the send result — so an unsent token is dropped
armed on the worker. `receiverAlive` tells whether the awaiting caller was
still there when the worker sent. -/
def asyncLockRun (cloneResult : Except IoError Nat)
    (acquire : Except IoError Unit) (receiverAlive : Bool) : AsyncLockRun :=
  match cloneResult with
  | .error e =>
    { workerSpawned := false
      callerResult := some (.error e)
      workerDropReleases := []
      workerDropClosedHandles := [] }
  | .ok handle =>
    let guard : Except IoError LockGuard :=
      match acquire with
      | .ok () => .ok (LockGuard.new handle)
      | .error e => .error e
    match oneshotSend receiverAlive guard with
    | .ok () =>
      { workerSpawned := true
        callerResult := some guard
        workerDropReleases := []
        workerDropClosedHandles := [] }
    | .error unsent =>
      { workerSpawned := true
        callerResult := none
        workerDropReleases :=
          match unsent with
          | .ok tok => tok.dropReleases
          | .error _ => []
        workerDropClosedHandles :=
          match unsent with
          | .ok tok => tok.dropClosesHandles
          | .error _ => [] }

/-- The lock is still held with nobody able to release it iff the native
acquisition succeeded, no release was performed when the worker dropped the
unsent result, and no armed token reached the caller. -/
def AsyncLockRun.lockStillHeldUnobserved (run : AsyncLockRun)
    (acquired : Bool) : Bool :=
  acquired && run.workerDropReleases.isEmpty &&
    (match run.callerResult with
     | some (Except.ok _) => false
     | _ => true)

/-- The value the awaiting caller receives from `nonblocking::lock` when it
is itself still alive (`async_recv.await.expect(..)`). -/
def asyncLockResult (cloneResult : Except IoError Nat)
    (acquire : Except IoError Unit) : Except IoError LockGuard :=
  match cloneResult with
  | .error e => .error e
  | .ok handle =>
    match acquire with
    | .ok () => .ok (LockGuard.new handle)
    | .error e => .error e

/-- `nonblocking::LockRead::lock_read` (src/lib.rs lines 173-180): await
`lock::<false, true>`, hand the container back on failure, otherwise defuse
the token into a read guard (`defuse_with` discards the duplicated handle).
The outer `Option` models the unreachable defuse panic. -/
def asyncLockRead {T : Type} (self : T) (env : OpenFileEnv) :
    Option (Except (T × IoError) (RwLockReadGuard T)) :=
  match asyncLockResult env.cloneResult (env.acquireResult false true) with
  | .error error => some (.error (self, error))
  | .ok guard => (guard.defuseWith fun _ => RwLockReadGuard.new self).map Except.ok

/-- `nonblocking::LockRead::try_lock_read` (src/lib.rs lines 182-189). -/
def asyncTryLockRead {T : Type} (self : T) (env : OpenFileEnv) :
    Option (Except (T × IoError) (RwLockReadGuard T)) :=
  match asyncLockResult env.cloneResult (env.acquireResult false false) with
  | .error error => some (.error (self, error))
  | .ok guard => (guard.defuseWith fun _ => RwLockReadGuard.new self).map Except.ok

/-- `nonblocking::LockWrite::lock_write` (src/lib.rs lines 197-204). -/
def asyncLockWrite {T : Type} (self : T) (env : OpenFileEnv) :
    Option (Except (T × IoError) (RwLockWriteGuard T)) :=
  match asyncLockResult env.cloneResult (env.acquireResult true true) with
  | .error error => some (.error (self, error))
  | .ok guard => (guard.defuseWith fun _ => RwLockWriteGuard.new self).map Except.ok

/-- `nonblocking::LockWrite::try_lock_write` (src/lib.rs lines 206-213). -/
def asyncTryLockWrite {T : Type} (self : T) (env : OpenFileEnv) :
    Option (Except (T × IoError) (RwLockWriteGuard T)) :=
  match asyncLockResult env.cloneResult (env.acquireResult true false) with
  | .error error => some (.error (self, error))
  | .ok guard => (guard.defuseWith fun _ => RwLockWriteGuard.new self).map Except.ok

/-! ### The guard API surface towards the wrapped stream (claim C9) -/

/-- The kind of access to the inner file that one guard operation hands to
the caller. -/
inductive ExposedAccess
  | readOnlyOp
  | writeOp
  | sharedBorrow
  | mutableBorrow
  | ownership
deriving DecidableEq, Repr

/-- An access is write-capable while the lock is held iff it delegates a
stream-writing operation or hands out a mutable borrow of the inner file
(through which `Write`/`AsyncWrite` methods of the file become callable). -/
def ExposedAccess.writeCapable : ExposedAccess → Bool
  | .writeOp => true
  | .mutableBorrow => true
  | _ => false

/-- One operation of a guard: its Rust name, whether it is a trait impl
delegating to the inner file (as opposed to an inherent accessor), and the
access it exposes. -/
structure GuardApiOp where
  name : String
  viaTraitDelegation : Bool
  access : ExposedAccess
deriving DecidableEq, Repr

/-- Every operation of `RwLockReadGuard` that reaches the inner file
(src/read_guard.rs). Inherent accessors: `inner` returns `&T`, `inner_mut`
returns `&mut T`, `inner_pin_mut` returns `Pin<&mut T>`, `release` unlocks
and returns `T` by value. Trait impls delegate `Read`, `BufRead`, `Seek`
and their async counterparts (`by_ref` is omitted: its body returns `self`
and touches no inner operation). -/
def readGuardApi : List GuardApiOp := [
  ⟨"inner", false, ExposedAccess.sharedBorrow⟩,
  ⟨"inner_mut", false, ExposedAccess.mutableBorrow⟩,
  ⟨"inner_pin_mut", false, ExposedAccess.mutableBorrow⟩,
  ⟨"release", false, ExposedAccess.ownership⟩,
  ⟨"Read::read", true, ExposedAccess.readOnlyOp⟩,
  ⟨"Read::read_vectored", true, ExposedAccess.readOnlyOp⟩,
  ⟨"Read::read_to_end", true, ExposedAccess.readOnlyOp⟩,
  ⟨"Read::read_to_string", true, ExposedAccess.readOnlyOp⟩,
  ⟨"Read::read_exact", true, ExposedAccess.readOnlyOp⟩,
  ⟨"BufRead::fill_buf", true, ExposedAccess.readOnlyOp⟩,
  ⟨"BufRead::consume", true, ExposedAccess.readOnlyOp⟩,
  ⟨"BufRead::read_until", true, ExposedAccess.readOnlyOp⟩,
  ⟨"BufRead::read_line", true, ExposedAccess.readOnlyOp⟩,
  ⟨"Seek::seek", true, ExposedAccess.readOnlyOp⟩,
  ⟨"Seek::rewind", true, ExposedAccess.readOnlyOp⟩,
  ⟨"Seek::stream_position", true, ExposedAccess.readOnlyOp⟩,
  ⟨"Seek::seek_relative", true, ExposedAccess.readOnlyOp⟩,
  ⟨"AsyncRead::poll_read", true, ExposedAccess.readOnlyOp⟩,
  ⟨"AsyncBufRead::poll_fill_buf", true, ExposedAccess.readOnlyOp⟩,
  ⟨"AsyncBufRead::consume", true, ExposedAccess.readOnlyOp⟩,
  ⟨"AsyncSeek::start_seek", true, ExposedAccess.readOnlyOp⟩,
  ⟨"AsyncSeek::poll_complete", true, ExposedAccess.readOnlyOp⟩]

/-- Every operation of `RwLockWriteGuard` that reaches the inner file
(src/write_guard.rs): the read-guard surface plus the `Write` and
`AsyncWrite` delegations (`is_write_vectored` only queries). -/
def writeGuardApi : List GuardApiOp := [
  ⟨"inner", false, ExposedAccess.sharedBorrow⟩,
  ⟨"inner_mut", false, ExposedAccess.mutableBorrow⟩,
  ⟨"inner_pin_mut", false, ExposedAccess.mutableBorrow⟩,
  ⟨"release", false, ExposedAccess.ownership⟩,
  ⟨"Read::read", true, ExposedAccess.readOnlyOp⟩,
  ⟨"Read::read_vectored", true, ExposedAccess.readOnlyOp⟩,
  ⟨"Read::read_to_end", true, ExposedAccess.readOnlyOp⟩,
  ⟨"Read::read_to_string", true, ExposedAccess.readOnlyOp⟩,
  ⟨"Read::read_exact", true, ExposedAccess.readOnlyOp⟩,
  ⟨"BufRead::fill_buf", true, ExposedAccess.readOnlyOp⟩,
  ⟨"BufRead::consume", true, ExposedAccess.readOnlyOp⟩,
  ⟨"BufRead::read_until", true, ExposedAccess.readOnlyOp⟩,
  ⟨"BufRead::read_line", true, ExposedAccess.readOnlyOp⟩,
  ⟨"Write::write", true, ExposedAccess.writeOp⟩,
  ⟨"Write::write_vectored", true, ExposedAccess.writeOp⟩,
  ⟨"Write::write_all", true, ExposedAccess.writeOp⟩,
  ⟨"Write::write_fmt", true, ExposedAccess.writeOp⟩,
  ⟨"Write::flush", true, ExposedAccess.writeOp⟩,
  ⟨"Seek::seek", true, ExposedAccess.readOnlyOp⟩,
  ⟨"Seek::rewind", true, ExposedAccess.readOnlyOp⟩,
  ⟨"Seek::stream_position", true, ExposedAccess.readOnlyOp⟩,
  ⟨"Seek::seek_relative", true, ExposedAccess.readOnlyOp⟩,
  ⟨"AsyncRead::poll_read", true, ExposedAccess.readOnlyOp⟩,
  ⟨"AsyncBufRead::poll_fill_buf", true, ExposedAccess.readOnlyOp⟩,
  ⟨"AsyncBufRead::consume", true, ExposedAccess.readOnlyOp⟩,
  ⟨"AsyncWrite::poll_write", true, ExposedAccess.writeOp⟩,
  ⟨"AsyncWrite::poll_write_vectored", true, ExposedAccess.writeOp⟩,
  ⟨"AsyncWrite::is_write_vectored", true, ExposedAccess.readOnlyOp⟩,
  ⟨"AsyncWrite::poll_flush", true, ExposedAccess.writeOp⟩,
  ⟨"AsyncWrite::poll_shutdown", true, ExposedAccess.writeOp⟩,
  ⟨"AsyncSeek::start_seek", true, ExposedAccess.readOnlyOp⟩,
  ⟨"AsyncSeek::poll_complete", true, ExposedAccess.readOnlyOp⟩]

/-! ### Test environments used by the claim theorems -/

/-- A Unix file whose handle duplication succeeds with `fd` and whose flock
calls all return `flockResult`. -/
def unixTestEnv (fd : Nat) (flockResult : Except IoError Unit) : UnixFileEnv :=
  { cloneResult := Except.ok fd, flock := fun _ => flockResult }

/-- A Windows file whose `LockFileEx` calls all return `lockResult`. -/
def windowsTestEnv (lockResult : Except IoError Unit) : WindowsFileEnv :=
  { lockFileEx := fun _ => lockResult, unlockFile := fun _ => Except.ok () }

/-- An open file whose acquire calls always fail with an error whose raw OS
code records the `(WRITE, BLOCK)` const generics the call was issued with
(`2 * WRITE + BLOCK`), so an entry point's native call parameters become
observable in its result. -/
def probeEnv : OpenFileEnv :=
  { cloneResult := Except.ok 0
    acquireResult := fun write block =>
      Except.error
        { kind := ErrorKind.otherKind
          rawOsError := some ((if write then 2 else 0) + (if block then 1 else 0)) } }

/-! ### Claim theorems -/

/-- C1: a lock token is released exactly once. Dropping it while armed
performs the single native release on its handle and closes it; `defuse`
moves the handle out leaving the slot `None`, after which drop releases
nothing; `defuse_with` routes through `defuse` and applies the map to the
extracted handle. -/
theorem lock_token_released_exactly_once :
    ∀ (h : Nat),
      tokenReleaseCount h TokenLifecycle.droppedArmed = 1
    ∧ tokenReleaseCount h TokenLifecycle.defusedThenDropped = 0
    ∧ (LockGuard.new h).dropReleases = [h]
    ∧ (LockGuard.new h).defuse = some (h, { handle := none })
    ∧ ({ handle := none } : LockGuard).dropReleases = []
    ∧ ∀ {α : Type} (f : Nat → α), (LockGuard.new h).defuseWith f = some (f h) := by
  intro h
  refine ⟨rfl, rfl, rfl, rfl, rfl, ?_⟩
  intro α f
  rfl

/-- C2: for every guard type the native release runs at most once per
acquisition. For the borrowed read and write guards both complete
lifecycles (drop while armed, or `release()` followed by drop) perform
exactly one native release, because `release` empties the slot and drop
releases only when the slot is occupied; the owned guards release exactly
once on drop and expose no `release` method. -/
theorem guard_release_at_most_once {T : Type} (t : T)
    (unlockResult : Except IoError Unit) (path : GuardLifecycle) :
    readGuardLifecycleReleases t unlockResult path = 1
  ∧ writeGuardLifecycleReleases t unlockResult path = 1
  ∧ (∀ g : OwnedRwLockReadGuard T, g.dropReleaseCount = 1)
  ∧ (∀ g : OwnedRwLockWriteGuard T, g.dropReleaseCount = 1)
  ∧ ownedReadGuardMethodNames.contains "release" = false
  ∧ ownedWriteGuardMethodNames.contains "release" = false := by
  refine ⟨?_, ?_, fun g => rfl, fun g => rfl, by decide, by decide⟩ <;>
    cases path <;> cases unlockResult <;> rfl

/-- C5: when the async caller is cancelled so the one-shot receiver is gone
before the send, a successfully acquired lock token stays inside the failed
send result; dropping that result on the worker releases the lock on the
duplicated handle and closes it, so neither the lock nor the handle
outlives the run unobserved. -/
theorem cancelled_async_acquisition_releases_lock :
    ∀ (handle : Nat),
      (asyncLockRun (Except.ok handle) (Except.ok ()) false).workerDropReleases
        = [handle]
    ∧ (asyncLockRun (Except.ok handle) (Except.ok ()) false).workerDropClosedHandles
        = [handle]
    ∧ (asyncLockRun (Except.ok handle) (Except.ok ()) false).callerResult = none
    ∧ (asyncLockRun (Except.ok handle) (Except.ok ()) false).lockStillHeldUnobserved
        true = false
    ∧ (asyncLockRun (Except.ok handle) (Except.ok ()) false).workerSpawned = true :=
  fun handle => ⟨rfl, rfl, rfl, rfl, rfl⟩

/-- C6: the `(WRITE, BLOCK)` const generics map bijectively onto the four
native operation codes — enumerated for the Unix flock operations, and on
Windows the exclusive bit is set iff WRITE while the fail-immediately bit
is set iff non-blocking, the four flag words being pairwise distinct.
Every try entry point issues the non-blocking native call: under `probeEnv`
the surfaced raw code `2 * WRITE + BLOCK` is even, i.e. BLOCK was false. -/
theorem acquisition_flag_mapping_bijective :
    unixOperation false false = FlockOperation.nonBlockingLockShared
  ∧ unixOperation false true = FlockOperation.lockShared
  ∧ unixOperation true false = FlockOperation.nonBlockingLockExclusive
  ∧ unixOperation true true = FlockOperation.lockExclusive
  ∧ [unixOperation false false, unixOperation false true,
      unixOperation true false, unixOperation true true].Nodup
  ∧ (∀ write block : Bool,
      (windowsFlags write block &&& LOCKFILE_EXCLUSIVE_LOCK != 0) = write)
  ∧ (∀ write block : Bool,
      (windowsFlags write block &&& LOCKFILE_FAIL_IMMEDIATELY != 0) = !block)
  ∧ [windowsFlags false false, windowsFlags false true,
      windowsFlags true false, windowsFlags true true].Nodup
  ∧ blockingTryLockRead (0 : Nat) probeEnv
      = Except.error (0, IoError.mk ErrorKind.otherKind (some 0))
  ∧ blockingTryLockWrite (0 : Nat) probeEnv
      = Except.error (0, IoError.mk ErrorKind.otherKind (some 2))
  ∧ asyncTryLockRead (0 : Nat) probeEnv
      = some (Except.error (0, IoError.mk ErrorKind.otherKind (some 0)))
  ∧ asyncTryLockWrite (0 : Nat) probeEnv
      = some (Except.error (0, IoError.mk ErrorKind.otherKind (some 2))) := by
  refine ⟨rfl, rfl, rfl, rfl, by decide, by decide, by decide, by decide,
    rfl, rfl, rfl, rfl⟩

/-- C7: none of the five destructors can panic on a failed native release:
each handles the release result with the discarding `let _ = ..` pattern,
under which `dropPanics` is false for every outcome. -/
theorem drop_never_panics_on_release_failure :
    ∀ (r : Except IoError Unit),
      dropPanics lockGuardDropHandling r = false
    ∧ dropPanics readGuardDropHandling r = false
    ∧ dropPanics writeGuardDropHandling r = false
    ∧ dropPanics ownedReadGuardDropHandling r = false
    ∧ dropPanics ownedWriteGuardDropHandling r = false :=
  fun r => ⟨rfl, rfl, rfl, rfl, rfl⟩

/-- C8 counterexample: on Windows the acquisition locks the byte range of
length 1 at offset 0, which does not cover a file of 2 bytes — the claim
that every acquisition covers the entire file on every platform fails. -/
theorem windows_lock_region_not_whole_file :
    (windowsAcquireRange true true).covers 2 = false := by decide

/-- C8 amended: acquisition and release operate on a fixed region
independent of mode and policy; on Unix the flock-based region is the whole
file, while on Windows both `LockFileEx` and `UnlockFile` act on the single
byte at offset 0, the acquire and release regions coinciding. -/
theorem lock_region_per_platform :
    ∀ (write block : Bool) (fileSize : Nat),
      (unixAcquireRange write block).covers fileSize = true
    ∧ unixReleaseRange.covers fileSize = true
    ∧ windowsAcquireRange write block = LockRange.byteRange 0 1
    ∧ windowsReleaseRange = LockRange.byteRange 0 1
    ∧ windowsAcquireRange write block = windowsReleaseRange := by
  intro write block fileSize
  refine ⟨rfl, rfl, ?_, ?_, ?_⟩ <;> cases write <;> cases block <;> rfl

/-- C9 counterexample: the read guard publicly exposes `inner_mut`, which
returns a mutable borrow of the inner file — a write-capable access — so
the claim that no write-capable access is reachable through the read guard
fails. -/
theorem read_guard_exposes_mutable_inner_access :
    GuardApiOp.mk "inner_mut" false ExposedAccess.mutableBorrow ∈ readGuardApi
  ∧ readGuardApi.all (fun op => !op.access.writeCapable) = false := by
  refine ⟨?_, ?_⟩ <;> decide

/-- C9 amended: every trait delegation of the read guard to the inner file
is read-only (no `Write`/`AsyncWrite` impl exists), the write guard also
delegates stream-writing operations, and the only write-capable exposures
of the read guard are the inherent accessors `inner_mut` and
`inner_pin_mut` returning mutable borrows. -/
theorem read_guard_trait_delegations_read_only :
    (readGuardApi.filter (fun op => op.viaTraitDelegation)).all
        (fun op => !op.access.writeCapable) = true
  ∧ (writeGuardApi.filter (fun op => op.viaTraitDelegation)).any
        (fun op => op.access.writeCapable) = true
  ∧ readGuardApi.filter (fun op => op.access.writeCapable)
      = [GuardApiOp.mk "inner_mut" false ExposedAccess.mutableBorrow,
         GuardApiOp.mk "inner_pin_mut" false ExposedAccess.mutableBorrow] := by
  refine ⟨?_, ?_, ?_⟩ <;> decide

/-- C10: `release()` on a borrowed guard first moves the file out of the
slot and then performs the native unlock: on failure the caller receives
only the error (the moved-out file is dropped and lost), on success the
file is returned; either way the slot is `None` afterwards so the
subsequent drop performs no release. -/
theorem guard_release_moves_file_out {T : Type} (t : T) (e : IoError) :
    (RwLockReadGuard.new t).release (Except.error e)
        = some (Except.error e, { file := none })
  ∧ (RwLockReadGuard.new t).release (Except.ok ())
        = some (Except.ok t, { file := none })
  ∧ ({ file := none } : RwLockReadGuard T).dropReleaseCount = 0
  ∧ (RwLockWriteGuard.new t).release (Except.error e)
        = some (Except.error e, { file := none })
  ∧ (RwLockWriteGuard.new t).release (Except.ok ())
        = some (Except.ok t, { file := none })
  ∧ ({ file := none } : RwLockWriteGuard T).dropReleaseCount = 0 :=
  ⟨rfl, rfl, rfl, rfl, rfl, rfl⟩

/-- C3: on the non-blocking paths the platform-specific contention error is
canonicalised to `WouldBlock` — Unix remaps an `AlreadyExists` kind, Windows
remaps the raw `ERROR_LOCK_VIOLATION` code — while every other error passes
through unchanged and the blocking paths never remap. -/
theorem nonblocking_contention_remapped_to_wouldblock
    (fd : Nat) (err : IoError) (write : Bool) :
    (err.kind = ErrorKind.alreadyExists →
      unixAcquireLockBlocking write false (unixTestEnv fd (Except.error err))
        = Except.error (IoError.ofKind ErrorKind.wouldBlock))
  ∧ (err.kind ≠ ErrorKind.alreadyExists →
      unixAcquireLockBlocking write false (unixTestEnv fd (Except.error err))
        = Except.error err)
  ∧ unixAcquireLockBlocking write true (unixTestEnv fd (Except.error err))
      = Except.error err
  ∧ (err.rawOsError = some ERROR_LOCK_VIOLATION →
      windowsAcquireLockBlocking write false (windowsTestEnv (Except.error err))
        = Except.error (IoError.ofKind ErrorKind.wouldBlock))
  ∧ (err.rawOsError ≠ some ERROR_LOCK_VIOLATION →
      windowsAcquireLockBlocking write false (windowsTestEnv (Except.error err))
        = Except.error err)
  ∧ windowsAcquireLockBlocking write true (windowsTestEnv (Except.error err))
      = Except.error err := by
  obtain ⟨k, ro⟩ := err
  refine ⟨?_, ?_, rfl, ?_, ?_, rfl⟩
  · intro hk
    simp only [IoError.kind] at hk
    subst hk
    rfl
  · intro hk
    simp only [IoError.kind] at hk
    cases k
    case alreadyExists => exact absurd rfl hk
    all_goals rfl
  · intro hro
    simp only [IoError.rawOsError] at hro
    subst hro
    rfl
  · intro hro
    simp only [IoError.rawOsError] at hro
    cases ro with
    | none => rfl
    | some code =>
      have hcode : ¬ code = ERROR_LOCK_VIOLATION := by
        intro hc
        exact hro (by rw [hc])
      simp only [windowsAcquireLockBlocking, windowsTestEnv, Bool.false_eq_true,
        if_false, if_neg hcode]

/-- C3 witness: the theorem applied to concrete errors on both platforms,
each hypothesis discharged at that input. -/
theorem nonblocking_contention_remapped_to_wouldblock_witness :
    unixAcquireLockBlocking true false
        (unixTestEnv 0 (Except.error (IoError.mk ErrorKind.alreadyExists none)))
      = Except.error (IoError.ofKind ErrorKind.wouldBlock)
  ∧ unixAcquireLockBlocking true false
        (unixTestEnv 0 (Except.error (IoError.mk ErrorKind.interrupted none)))
      = Except.error (IoError.mk ErrorKind.interrupted none)
  ∧ windowsAcquireLockBlocking false false
        (windowsTestEnv (Except.error (IoError.mk ErrorKind.otherKind (some 33))))
      = Except.error (IoError.ofKind ErrorKind.wouldBlock)
  ∧ windowsAcquireLockBlocking false false
        (windowsTestEnv (Except.error (IoError.mk ErrorKind.otherKind (some 5))))
      = Except.error (IoError.mk ErrorKind.otherKind (some 5)) := by
  have h1 := nonblocking_contention_remapped_to_wouldblock 0
    (IoError.mk ErrorKind.alreadyExists none) true
  have h2 := nonblocking_contention_remapped_to_wouldblock 0
    (IoError.mk ErrorKind.interrupted none) true
  have h3 := nonblocking_contention_remapped_to_wouldblock 0
    (IoError.mk ErrorKind.otherKind (some 33)) false
  have h4 := nonblocking_contention_remapped_to_wouldblock 0
    (IoError.mk ErrorKind.otherKind (some 5)) false
  exact ⟨h1.1 rfl, h2.2.1 (by decide), h3.2.2.2.1 rfl, h4.2.2.2.2.1 (by decide)⟩

/-- C4: every container-consuming entry point — the four synchronous and
four asynchronous lock and try-lock calls — hands the original container
back unchanged alongside the error whenever acquisition fails, and a
failure to duplicate the handle on the async path happens before any
worker is spawned. -/
theorem failed_acquisition_returns_container {T : Type} (self : T)
    (env : OpenFileEnv) (err : IoError) :
    (env.acquireResult false true = Except.error err →
      blockingLockRead self env = Except.error (self, err))
  ∧ (env.acquireResult false false = Except.error err →
      blockingTryLockRead self env = Except.error (self, err))
  ∧ (env.acquireResult true true = Except.error err →
      blockingLockWrite self env = Except.error (self, err))
  ∧ (env.acquireResult true false = Except.error err →
      blockingTryLockWrite self env = Except.error (self, err))
  ∧ (env.cloneResult = Except.error err →
      asyncLockRead self env = some (Except.error (self, err))
    ∧ asyncTryLockRead self env = some (Except.error (self, err))
    ∧ asyncLockWrite self env = some (Except.error (self, err))
    ∧ asyncTryLockWrite self env = some (Except.error (self, err))
    ∧ (asyncLockRun env.cloneResult (env.acquireResult false true)
        true).workerSpawned = false)
  ∧ (∀ fd : Nat, env.cloneResult = Except.ok fd →
      (env.acquireResult false true = Except.error err →
        asyncLockRead self env = some (Except.error (self, err)))
    ∧ (env.acquireResult false false = Except.error err →
        asyncTryLockRead self env = some (Except.error (self, err)))
    ∧ (env.acquireResult true true = Except.error err →
        asyncLockWrite self env = some (Except.error (self, err)))
    ∧ (env.acquireResult true false = Except.error err →
        asyncTryLockWrite self env = some (Except.error (self, err)))) := by
  refine ⟨?_, ?_, ?_, ?_, ?_, ?_⟩
  · intro h
    simp only [blockingLockRead, h]
  · intro h
    simp only [blockingTryLockRead, h]
  · intro h
    simp only [blockingLockWrite, h]
  · intro h
    simp only [blockingTryLockWrite, h]
  · intro h
    refine ⟨?_, ?_, ?_, ?_, ?_⟩ <;>
      simp only [asyncLockRead, asyncTryLockRead, asyncLockWrite,
        asyncTryLockWrite, asyncLockResult, asyncLockRun, h]
  · intro fd hc
    refine ⟨?_, ?_, ?_, ?_⟩ <;> intro h <;>
      simp only [asyncLockRead, asyncTryLockRead, asyncLockWrite,
        asyncTryLockWrite, asyncLockResult, hc, h]

/-- C4 witness: the theorem applied at a concrete container and two concrete
environments — one failing at the native acquire, one failing at handle
duplication — with all hypotheses discharged. -/
theorem failed_acquisition_returns_container_witness :
    blockingLockRead (7 : Nat)
        { cloneResult := Except.ok 3
          acquireResult := fun _ _ =>
            Except.error (IoError.ofKind ErrorKind.interrupted) }
      = Except.error (7, IoError.ofKind ErrorKind.interrupted)
  ∧ asyncLockRead (7 : Nat)
        { cloneResult := Except.ok 3
          acquireResult := fun _ _ =>
            Except.error (IoError.ofKind ErrorKind.interrupted) }
      = some (Except.error (7, IoError.ofKind ErrorKind.interrupted))
  ∧ asyncTryLockWrite (7 : Nat)
        { cloneResult := Except.error (IoError.ofKind ErrorKind.otherKind)
          acquireResult := fun _ _ => Except.ok () }
      = some (Except.error (7, IoError.ofKind ErrorKind.otherKind)) := by
  have hA := failed_acquisition_returns_container (7 : Nat)
    { cloneResult := Except.ok 3
      acquireResult := fun _ _ =>
        Except.error (IoError.ofKind ErrorKind.interrupted) }
    (IoError.ofKind ErrorKind.interrupted)
  have hB := failed_acquisition_returns_container (7 : Nat)
    { cloneResult := Except.error (IoError.ofKind ErrorKind.otherKind)
      acquireResult := fun _ _ => Except.ok () }
    (IoError.ofKind ErrorKind.otherKind)
  exact ⟨hA.1 rfl, (hA.2.2.2.2.2 3 rfl).1 rfl, (hB.2.2.2.2.1 rfl).2.2.2.1⟩

end AsyncFdLock
